import Mathlib

/-!
Shallow embedding of the GBP (Google Business Profile) analysis pipeline.

Sources embedded (Python):
  src/src/utils/parsing.py        - relative-date parsing
  src/src/utils/scoring.py        - the seven sub-score band functions
  src/src/utils/computation.py    - calculate_score (weighted reduction)
  src/src/utils/analyzer_helper.py - the posts recency filter helper
  src/src/services/gbp_analyzer.py - pagination, review filter, photo counts,
                                     and the analyze orchestrator
  src/src/scrapers/photo_scraper.py - attribution classification control flow

Modelling conventions:
  - Python numbers (int/float mix) are modelled as exact rationals; float
    representation error is abstracted away.
  - A dict key that may be absent is an Option field; `d.get(k, v)` is
    `field.getD v` and `d.get(k)` is the Option itself.
  - Python exceptions are modelled with Except; a comparison such as
    `None >= 4` raises a TypeError, which is the error case of pyGE below.
  - Browser automation and HTTP calls are abstracted into environment data
    that records what each external call returned (or that it raised).
-/

/-- Python truthiness of an optional string: None and the empty string are
falsy, everything else is truthy. -/
def pyTruthy : Option String → Bool
  | none => false
  | some s => !(s == "")

/-- Character-list prefix test (needle is a prefix of hay). -/
def prefAux : List Char → List Char → Bool
  | [], _ => true
  | _ :: _, [] => false
  | a :: as, b :: bs => a == b && prefAux as bs

/-- Character-list substring test: needle occurs somewhere inside hay. -/
def subAux (needle : List Char) : List Char → Bool
  | [] => prefAux needle []
  | h :: t => prefAux needle (h :: t) || subAux needle t

/-- The Python containment test `needle in hay` on strings. -/
def strIn (needle hay : String) : Bool :=
  subAux needle.data hay.data

/-- The Python `str.lower()` method (ASCII lowering suffices here). -/
def pyLower (s : String) : String :=
  String.mk (s.data.map Char.toLower)

/-- Whitespace splitter on character lists, accumulating the current token
in reverse; empty tokens are dropped, matching Python `str.split()`. -/
def splitWsAux : List Char → List Char → List (List Char)
  | [], cur => if cur.isEmpty then [] else [cur.reverse]
  | c :: cs, cur =>
      if c.isWhitespace then
        if cur.isEmpty then splitWsAux cs [] else cur.reverse :: splitWsAux cs []
      else splitWsAux cs (c :: cur)

/-- The Python `str.split()` method: split on whitespace, dropping empty
tokens. -/
def pySplit (s : String) : List String :=
  (splitWsAux s.data []).map String.mk

/-- Digit-list value accumulator for pyParseInt. -/
def digitsVal : List Char → Nat → Option Nat
  | [], acc => some acc
  | c :: cs, acc =>
      if c.isDigit then digitsVal cs (acc * 10 + (c.toNat - '0'.toNat)) else none

/-- The Python `int(token)` conversion restricted to an optional sign
followed by decimal digits; anything else raises ValueError (none). -/
def pyParseInt (s : String) : Option Int :=
  match s.data with
  | [] => none
  | '-' :: rest =>
      if rest = [] then none else (digitsVal rest 0).map (fun n => -(n : Int))
  | '+' :: rest =>
      if rest = [] then none else (digitsVal rest 0).map (fun n => (n : Int))
  | l => (digitsVal l 0).map (fun n => (n : Int))

/-- Result of a relative-date conversion: a finite day count, the float
infinity the Python code returns for unparseable input, or an uncaught
Python exception (IndexError). -/
inductive DateDays where
  | days (q : ℚ)
  | inf
  | error
  deriving DecidableEq, Repr

/-- Embeds convert_relative_date_to_days (src/src/utils/parsing.py, lines
1-35).  The indexing `parts[0]` is performed outside any try block, so an
input whose whitespace split is empty raises IndexError (the .error case). -/
def convert_relative_date_to_days (date_str : String) : DateDays :=
  let date_str := pyLower date_str
  if strIn "now" date_str || strIn "moment" date_str then .days 0
  else
    let parts := pySplit date_str
    match parts with
    | [] => .error
    | p0 :: _ =>
      let num? : Option Int :=
        if p0 = "a" || p0 = "an" then some 1 else pyParseInt p0
      match num? with
      | none => .inf
      | some num =>
        if strIn "day" date_str then .days (num : ℚ)
        else if strIn "week" date_str then .days ((num * 7 : ℤ) : ℚ)
        else if strIn "month" date_str then .days ((num * 30 : ℤ) : ℚ)
        else if strIn "year" date_str then .days ((num * 365 : ℤ) : ℚ)
        else if strIn "hour" date_str then .days ((num : ℚ) / 24)
        else .inf

/-- Embeds _convert_relative_date_to_days (src/src/utils/parsing.py, lines
51-88).  Identical to the version above except that an empty token list is
guarded (`if not parts: return inf`), so this version never raises. -/
def underscore_convert_relative_date_to_days (date_str : String) : DateDays :=
  let date_str := pyLower date_str
  if strIn "now" date_str || strIn "moment" date_str then .days 0
  else
    let parts := pySplit date_str
    match parts with
    | [] => .inf
    | p0 :: _ =>
      let num? : Option Int :=
        if p0 = "a" || p0 = "an" then some 1 else pyParseInt p0
      match num? with
      | none => .inf
      | some num =>
        if strIn "day" date_str then .days (num : ℚ)
        else if strIn "week" date_str then .days ((num * 7 : ℤ) : ℚ)
        else if strIn "month" date_str then .days ((num * 30 : ℤ) : ℚ)
        else if strIn "year" date_str then .days ((num * 365 : ℤ) : ℚ)
        else if strIn "hour" date_str then .days ((num : ℚ) / 24)
        else .inf

/-- Modelled from the spec (section 4.3 step 6): immediacy returns 0 days;
otherwise a leading quantity (the word a/an means 1, else the integer value
of the first token, unparseable giving infinity) times a unit multiplier
looked up from the unit table day 1, week 7, month 30, year 365,
hour 1/24; an unrecognized unit gives infinity.  Unit recognition is by
substring containment, matching the source. -/
def relativeDateSpec (date_str : String) : DateDays :=
  let s := pyLower date_str
  if strIn "now" s || strIn "moment" s then .days 0
  else
    match pySplit s with
    | [] => .inf
    | tok :: _ =>
      let qty : Option Int :=
        if tok = "a" || tok = "an" then some 1 else pyParseInt tok
      match qty with
      | none => .inf
      | some n =>
        let units : List (String × ℚ) :=
          [("day", 1), ("week", 7), ("month", 30), ("year", 365), ("hour", 1/24)]
        match units.findSome? (fun u => if strIn u.1 s then some u.2 else none) with
        | some m => .days (n * m)
        | none => .inf

/-! ## Scoring sub-metrics (src/src/utils/scoring.py) -/

/-- A Python exception relevant to the embedded code. -/
inductive PyErr where
  | typeError
  | attributeError
  | indexError
  deriving DecidableEq, Repr

/-- The Python comparison `x >= y` where x may be None: comparing None with
an int raises TypeError. -/
def pyGE (x : Option ℚ) (y : ℚ) : Except PyErr Bool :=
  match x with
  | none => .error .typeError
  | some v => .ok (y ≤ v)

/-- Embeds _star_rating_scoring (scoring.py lines 1-11): linear
(star_rating / 5) * 10. -/
def _star_rating_scoring (star_rating : ℚ) : ℚ :=
  (star_rating / 5) * 10

/-- Embeds _owner_images_scoring (scoring.py lines 14-33). -/
def _owner_images_scoring (owner_photo_count : ℚ) : ℚ :=
  if 20 ≤ owner_photo_count then 10
  else if owner_photo_count ≤ 19 ∧ 10 ≤ owner_photo_count then 8
  else if owner_photo_count ≤ 9 ∧ 5 ≤ owner_photo_count then 5
  else if owner_photo_count ≤ 4 ∧ 1 ≤ owner_photo_count then 2
  else 0

/-- Embeds _customer_images_scoring (scoring.py lines 36-59). -/
def _customer_images_scoring (customer_photo_count : ℚ) : ℚ :=
  if 75 ≤ customer_photo_count then 10
  else if customer_photo_count ≤ 74 ∧ 50 ≤ customer_photo_count then 8
  else if customer_photo_count ≤ 49 ∧ 30 ≤ customer_photo_count then 6
  else if customer_photo_count ≤ 29 ∧ 15 ≤ customer_photo_count then 4
  else if customer_photo_count ≤ 14 ∧ 5 ≤ customer_photo_count then 3
  else if customer_photo_count ≤ 4 ∧ 1 ≤ customer_photo_count then 1
  else 0

/-- Embeds _fields_filled_scoring (scoring.py lines 62-89); the description
argument is tested for Python truthiness (None and the empty string give no
description bonus). -/
def _fields_filled_scoring (attributes : ℚ) (description : Option String) : ℚ :=
  let description_score : ℚ := if pyTruthy description then 2 else 0
  let fields_filled := attributes
  let attribute_score : ℚ :=
    if 15 ≤ fields_filled then 8
    else if fields_filled ≤ 14 ∧ 10 ≤ fields_filled then 6
    else if fields_filled ≤ 9 ∧ 5 ≤ fields_filled then 4
    else if fields_filled ≤ 4 ∧ 1 ≤ fields_filled then 1
    else 0
  description_score + attribute_score

/-- Embeds _review_recency_scoring (scoring.py lines 92-114).  The argument
comes from `business_data.get("recent_reviews_in_last_month_count")` with no
default, so a missing key reaches the `total_review >= 5` comparison as None
and raises TypeError. -/
def _review_recency_scoring (total_review : Option ℚ) : Except PyErr ℚ := do
  if (← pyGE total_review 5) then return 10
  else if total_review = some 4 then return 8
  else if total_review = some 3 then return 4
  else if total_review = some 2 then return 2
  else if total_review = some 1 then return 1
  else return 0

/-- Embeds _review_count_scoring (scoring.py lines 117-138). -/
def _review_count_scoring (review_count : ℚ) : ℚ :=
  if 250 ≤ review_count then 10
  else if review_count ≤ 249 ∧ 100 ≤ review_count then 8
  else if review_count ≤ 99 ∧ 50 ≤ review_count then 6
  else if review_count ≤ 49 ∧ 10 ≤ review_count then 3
  else if review_count ≤ 9 ∧ 1 ≤ review_count then 1
  else 0

/-- The special business-page domain substrings of scoring.py line 157. -/
def special_sites : List String :=
  [".business.site", "facebook.com", "instagram.com", "linkedin.com"]

/-- Embeds _NAPW_completeness_scoring (scoring.py lines 141-170): counts the
Python-truthy fields among name, address, phone, website; the all-four
branch is checked first, then the special-site website branch, then the
plain field-count bands. -/
def _NAPW_completeness_scoring
    (name address phone website : Option String) : ℚ :=
  let items_to_check := [name, address, phone, website]
  let existing_items := items_to_check.filter pyTruthy
  if existing_items.length = 4 then 10
  else if pyTruthy website
      && special_sites.any (fun site => strIn site (website.getD "")) then 8
  else if existing_items.length = 3 then 6
  else if existing_items.length = 2 then 3
  else if existing_items.length = 1 then 1
  else 0

/-- Embeds _google_post_scoring (scoring.py lines 173-192).  The argument
comes from `business_data.get("posts_count")` with no default, so a missing
key reaches the `update_count >= 4` comparison as None and raises
TypeError. -/
def _google_post_scoring (update_count : Option ℚ) : Except PyErr ℚ := do
  if (← pyGE update_count 4) then return 10
  else if update_count = some 3 then return 7
  else if update_count = some 2 then return 5
  else if update_count = some 1 then return 2
  else return 0

/-! ## Weighted score reduction (src/src/utils/computation.py) -/

/-- The nested dict under the photo_counts_by_uploader key.  An absent
field models an absent key; `get` with default 0 is `getD 0`. -/
structure PhotoCountsDict where
  owner_photo_count : Option ℚ := none
  customer_photo_count : Option ℚ := none
  deriving DecidableEq, Repr

/-- The business_data dict consumed by calculate_score.  Every field is
optional: none models an absent key. -/
structure BusinessData where
  photo_counts_by_uploader : Option PhotoCountsDict := none
  rating : Option ℚ := none
  reviews_count : Option ℚ := none
  attributes_count : Option ℚ := none
  description : Option String := none
  title : Option String := none
  address : Option String := none
  phone : Option String := none
  website : Option String := none
  posts_count : Option ℚ := none
  recent_reviews_in_last_month_count : Option ℚ := none
  deriving DecidableEq, Repr

/-- Round-half-even on rationals: the Python 3 built-in `round` tie-breaking
rule, with float representation abstracted to exact rationals. -/
def roundHalfEven (y : ℚ) : ℤ :=
  if Int.fract y < 1/2 then ⌊y⌋
  else if 1/2 < Int.fract y then ⌈y⌉
  else if Even ⌊y⌋ then ⌊y⌋ else ⌊y⌋ + 1

/-- The Python `round(x, 1)` call: round to one decimal place. -/
def pyRound1 (x : ℚ) : ℚ :=
  ((roundHalfEven (10 * x) : ℤ) : ℚ) / 10

/-- Embeds calculate_score (src/src/utils/computation.py lines 13-78).
Reads each key of the business_data dict (defaulting exactly the keys the
source defaults), computes the seven sub-scores, applies the fixed weights
and rounds to one decimal place.  posts_count and
recent_reviews_in_last_month_count are read with `.get` and no default, so
their sub-score calls can raise TypeError on a missing key; all other
reads supply a default.  The print statements of the source are ignored. -/
def calculate_score (business_data : BusinessData) : Except PyErr ℚ := do
  let photo_count := business_data.photo_counts_by_uploader.getD {}
  let owner_photos := photo_count.owner_photo_count.getD 0
  let customer_photos := photo_count.customer_photo_count.getD 0
  let star_rating := _star_rating_scoring (business_data.rating.getD 0)
  let review_count := _review_count_scoring (business_data.reviews_count.getD 0)
  let attributes := business_data.attributes_count.getD 0
  let description := business_data.description
  let name := business_data.title
  let address := business_data.address
  let phone := business_data.phone
  let website := business_data.website
  let google_post := business_data.posts_count
  let review_recency := business_data.recent_reviews_in_last_month_count
  let completeness_score := _fields_filled_scoring attributes description
  let NAPW_score := _NAPW_completeness_scoring name address phone website
  let google_post_score ← _google_post_scoring google_post
  let owner_score := _owner_images_scoring owner_photos
  let customer_score := _customer_images_scoring customer_photos
  let review_recency_score ← _review_recency_scoring review_recency
  let total_image_score := (owner_score + customer_score) / 2
  let weighted_google_score := google_post_score * 0.20
  let weighted_image_score := total_image_score * 0.20
  let weighted_review_recency_score := review_recency_score * 0.20
  let weighted_star_score := star_rating * 0.15
  let weighted_review_score := review_count * 0.15
  let weighted_fields_score := completeness_score * 0.05
  let weighted_napw_score := NAPW_score * 0.05
  let business_score :=
    weighted_google_score
      + weighted_image_score
      + weighted_review_recency_score
      + weighted_star_score
      + weighted_review_score
      + weighted_fields_score
      + weighted_napw_score
  let safe_score := pyRound1 business_score
  return safe_score

/-- A fully populated business_data record built from plain values; the
count fields are natural numbers, so they are non-negative integers by
construction. -/
def mkFullRecord (rating : ℚ)
    (reviews attrs posts recent owner customer : ℕ)
    (title address phone website desc : String) : BusinessData :=
  { photo_counts_by_uploader :=
      some { owner_photo_count := some (owner : ℚ),
             customer_photo_count := some (customer : ℚ) }
    rating := some rating
    reviews_count := some (reviews : ℚ)
    attributes_count := some (attrs : ℚ)
    description := some desc
    title := some title
    address := some address
    phone := some phone
    website := some website
    posts_count := some (posts : ℚ)
    recent_reviews_in_last_month_count := some (recent : ℚ) }

/-- The pure value of _google_post_scoring on a present (non-None) count. -/
def googlePostBand (q : ℚ) : ℚ :=
  if 4 ≤ q then 10
  else if q = 3 then 7
  else if q = 2 then 5
  else if q = 1 then 2
  else 0

/-- The pure value of _review_recency_scoring on a present count. -/
def reviewRecencyBand (q : ℚ) : ℚ :=
  if 5 ≤ q then 10
  else if q = 4 then 8
  else if q = 3 then 4
  else if q = 2 then 2
  else if q = 1 then 1
  else 0

/-- Modelled from the spec (section 4.4): the weighted sum of the seven
sub-scores before rounding, with the final weights listed there - posting
activity 0.20, combined image score 0.20, review recency 0.20, star rating
0.15, review count 0.15, completeness 0.05, NAPW 0.05; the combined image
score is the average of the owner and customer sub-scores. -/
def specWeightedSum (business_data : BusinessData) : ℚ :=
  googlePostBand (business_data.posts_count.getD 0) * 0.20
    + ((_owner_images_scoring
          ((business_data.photo_counts_by_uploader.getD {}).owner_photo_count.getD 0)
        + _customer_images_scoring
          ((business_data.photo_counts_by_uploader.getD {}).customer_photo_count.getD 0)) / 2)
        * 0.20
    + reviewRecencyBand
        (business_data.recent_reviews_in_last_month_count.getD 0) * 0.20
    + _star_rating_scoring (business_data.rating.getD 0) * 0.15
    + _review_count_scoring (business_data.reviews_count.getD 0) * 0.15
    + _fields_filled_scoring (business_data.attributes_count.getD 0)
        business_data.description * 0.05
    + _NAPW_completeness_scoring business_data.title business_data.address
        business_data.phone business_data.website * 0.05

/-! ## Provider pagination (gbp_analyzer.py lines 46-83 and
analyzer_helper.py lines 34-69; both loops are identical up to the page
limit, which is a field of the class (default 10) in the service version
and a module constant (1) in the helper, so it is a parameter here). -/

/-- One provider response as seen by _paginate_results: `empty` covers an
API error or exception (the safe call returns the empty dict) and a falsy
results dict; `page` carries the items under the results key and the
optional next_page_token of the serpapi_pagination dict. -/
inductive ApiPage (α : Type) where
  | empty
  | page (items : List α) (next_page_token : Option String)

/-- The while loop of _paginate_results.  `remaining` counts how many more
iterations may run before `page_count > page_limit` stops the loop; `idx`
numbers the successive API calls (the carried next_page_token is abstracted
into the provider being indexed by call number); `acc` is all_results. -/
def paginateLoop {α : Type} (provider : ℕ → ApiPage α) :
    ℕ → ℕ → List α → List α
  | 0, _, acc => acc
  | r + 1, idx, acc =>
    match provider idx with
    | .empty => acc
    | .page items token =>
      if items.isEmpty then acc
      else
        match token with
        | some _ => paginateLoop provider r (idx + 1) (acc ++ items)
        | none => acc ++ items

/-- Embeds _paginate_results: run the loop with at most page_limit
iterations, starting from the first call with an empty accumulator. -/
def _paginate_results {α : Type} (provider : ℕ → ApiPage α)
    (page_limit : ℕ) : List α :=
  paginateLoop provider page_limit 0 []

/-- Number of items carried by one provider response. -/
def pageItemCount {α : Type} : ApiPage α → ℕ
  | .empty => 0
  | .page items _ => items.length

/-! ## Recency filters and photo counting -/

/-- A review dict: only the date key matters to the recency filter. -/
structure Review where
  date : Option String := none
  deriving DecidableEq, Repr

/-- A post dict: only the posted_at_text key matters to the recency
filter. -/
structure Post where
  posted_at_text : Option String := none
  deriving DecidableEq, Repr

/-- A photo attribution dict produced by the scraper. -/
structure Photo where
  uploader : Option String := none
  deriving DecidableEq, Repr

/-- The fixed review recency vocabulary of gbp_analyzer.py lines 98-106. -/
def VALID_MONTH_STRINGS : List String :=
  ["now", "today", "a week ago", "2 weeks ago", "3 weeks ago",
   "4 weeks ago", "a month ago"]

/-- Embeds _filter_reviews_by_recency (gbp_analyzer.py lines 85-120): keep
a review when its lowered date string is non-empty and either belongs to
the fixed vocabulary or contains the token day. -/
def _filter_reviews_by_recency (all_reviews : List Review) : List Review :=
  all_reviews.filter (fun review =>
    let date_string := pyLower ((review.date).getD "")
    if date_string == "" then false
    else VALID_MONTH_STRINGS.contains date_string || strIn "day" date_string)

/-- Embeds _filter_posts_by_recency (analyzer_helper.py lines 136-155):
count the posts whose posted_at_text converts to at most 31 days.  The
conversion of a non-empty unsplittable string raises IndexError inside
convert_relative_date_to_days, which would propagate out of the helper, so
the result is an Except.  Note the infinity result compares as not ≤ 31. -/
def _filter_posts_by_recency (all_posts : List Post) : Except PyErr ℕ := do
  let mut recent_post_count := 0
  for post in all_posts do
    let date_str := post.posted_at_text
    if pyTruthy date_str then
      match convert_relative_date_to_days (date_str.getD "") with
      | .days q => if q ≤ 31 then recent_post_count := recent_post_count + 1
      | .inf => pure ()
      | .error => throw .indexError
  return recent_post_count

/-- The photo count pair returned by _get_photo_counts. -/
structure PhotoCounts where
  owner_photo_count : ℕ
  customer_photo_count : ℕ
  deriving DecidableEq, Repr

/-- The classification step for one photo (gbp_analyzer.py lines 226-238):
owner when the defaulted uploader equals owner or contains the cleaned
business title, customer otherwise. -/
def classifyPhoto (clean_business_title : String) (photo : Photo) : Bool :=
  let uploader_name := (pyLower (photo.uploader.getD "Unknown")).trim
  uploader_name == "owner" || strIn clean_business_title uploader_name

/-- The tally loop of _get_photo_counts. -/
def tallyPhotos (clean_business_title : String) :
    List Photo → PhotoCounts → PhotoCounts
  | [], counts => counts
  | photo :: rest, counts =>
    if classifyPhoto clean_business_title photo then
      tallyPhotos clean_business_title rest
        { counts with owner_photo_count := counts.owner_photo_count + 1 }
    else
      tallyPhotos clean_business_title rest
        { counts with customer_photo_count := counts.customer_photo_count + 1 }

/-- Embeds _get_photo_counts (gbp_analyzer.py lines 206-250): empty
attributions or a falsy business title give the zero default; otherwise
every photo increments exactly one of the two counters. -/
def _get_photo_counts (business_title : String)
    (photo_attributions : List Photo) : PhotoCounts :=
  let default_counts : PhotoCounts :=
    { owner_photo_count := 0, customer_photo_count := 0 }
  if photo_attributions.isEmpty then default_counts
  else if business_title == "" then default_counts
  else
    let clean_business_title := (pyLower business_title).trim
    tallyPhotos clean_business_title photo_attributions default_counts

/-! ## The analyze orchestrator (gbp_analyzer.py lines 319-581) -/

/-- A social link entry (name and link both present and validated). -/
structure SocialLink where
  name : String
  link : String
  deriving DecidableEq, Repr

/-- One structured search result item: the keys analyze reads from it. -/
structure SearchItem where
  place_id : Option String := none
  data_id : Option String := none
  updates_posts : Option (List Post) := none
  deriving DecidableEq, Repr

/-- The initial search response: place_results (none when absent or falsy)
and the local_results list. -/
structure SearchResults where
  place_results : Option SearchItem := none
  local_results : List SearchItem := []
  deriving DecidableEq, Repr

/-- The place_results dict of the details response, with the keys analyze
reads.  The title field is doubly optional: the outer layer is key
presence (absent keys take the Unknown Business default) and the inner
layer is the stored value, which can be the Python None. -/
structure PlaceData where
  data_id : Option String := none
  title : Option (Option String) := none
  address : Option String := none
  phone : Option String := none
  website : Option String := none
  rating : Option ℚ := none
  reviews : Option ℚ := none
  updates_posts : Option (List Post) := none
  deriving DecidableEq, Repr

/-- Everything the environment decides during one analyze call: what the
two API lookups returned (none models the safe call answering with the
empty dict, or an absent or falsy place_results), what each concurrent
branch future delivered (or that collecting it raised), and what the
explicit posts query returned. -/
structure AnalyzeEnv where
  search : Option SearchResults := none
  details_place : Option PlaceData := none
  reviews_branch : Except Unit (List Review) := .ok []
  social_branch : Except Unit (List SocialLink) := .ok []
  photos_branch : Except Unit (List Photo) := .ok []
  posts_query : List Post := []

/-- The result_data dict assembled by analyze. -/
structure ResultData where
  title : Option String
  place_id : String
  address : Option String
  phone : Option String
  website : Option String
  rating : ℚ
  reviews_count : ℚ
  social_links : List SocialLink
  recent_reviews_in_last_month_count : ℕ
  posts_count : ℕ
  photo_counts_by_uploader : PhotoCounts
  total_photos_analyzed : ℕ
  deriving DecidableEq, Repr

/-- The dict analyze returns: a success flag, an error message when the
error key is present, and the data dict when the data key is present. -/
structure AnalyzeResult where
  success : Bool
  error : Option String := none
  data : Option ResultData := none
  deriving DecidableEq, Repr

/-- Python `a or b` on an optional string and a string default. -/
def pyOrStr (a : Option String) (b : String) : String :=
  if pyTruthy a then a.getD b else b

/-- Python `a or b` on two optional strings. -/
def pyOrOpt (a b : Option String) : Option String :=
  if pyTruthy a then a else b

/-- Message text for the modelled Python exception, standing in for the
str(e) interpolation of the source. -/
def errMsg : PyErr → String
  | .typeError => "TypeError"
  | .attributeError => "AttributeError"
  | .indexError => "IndexError"

/-- The default_result data dict of analyze (lines 326-345). -/
def defaultResultData (place_id : Option String) : ResultData :=
  { title := some "Unknown Business"
    place_id := pyOrStr place_id "unknown"
    address := none
    phone := none
    website := none
    rating := 0
    reviews_count := 0
    social_links := []
    recent_reviews_in_last_month_count := 0
    posts_count := 0
    photo_counts_by_uploader := { owner_photo_count := 0, customer_photo_count := 0 }
    total_photos_analyzed := 0 }

/-- The per-future collection step of analyze (lines 494-513): each branch
result is awaited under its own try/except, and a timeout or exception
degrades that branch to the empty default without affecting the others. -/
def branchResult {α : Type} (fut : Except Unit (List α)) : List α :=
  match fut with
  | .ok l => l
  | .error _ => []

/-- The detail-fetch-and-merge part of analyze (lines 402-572), entered
once identity resolution has produced a truthy current_place_id and,
when a search was issued, its first item.  Early Python returns are ok
results; the error case is an exception escaping to the top-level
handler.  The only such path reachable in this model is the search-URL
construction (line 455): when place_data carries the title key with value
None, business_title is None and None.replace raises AttributeError.
Error message literals elide the quoted interpolations of the source. -/
def analyzeDetails (env : AnalyzeEnv) (current_place_id : String)
    (initial_search_result : Option SearchItem) :
    Except PyErr AnalyzeResult :=
  match env.details_place with
  | none =>
      .ok { success := false,
            error := some "Could not fetch detailed data for place_id" }
  | some place_data =>
    let data_id := pyOrOpt place_data.data_id
      (match initial_search_result with
       | some item => item.data_id
       | none => none)
    let business_title : Option String :=
      match place_data.title with
      | none => some "Unknown Business"
      | some v => v
    match business_title with
    | none => .error .attributeError
    | some title_str =>
      let _search_url :=
        "https://www.google.com/maps/search/"
          ++ (title_str.replace " " "+")
      let all_reviews := branchResult env.reviews_branch
      let social_links := branchResult env.social_branch
      let photo_attributions := branchResult env.photos_branch
      let all_posts := (place_data.updates_posts).getD []
      let all_posts :=
        if all_posts.isEmpty then
          match initial_search_result with
          | some item => (item.updates_posts).getD []
          | none => all_posts
        else all_posts
      let all_posts :=
        if all_posts.isEmpty ∧ pyTruthy data_id then env.posts_query
        else all_posts
      let recent_reviews_filtered := _filter_reviews_by_recency all_reviews
      let photo_counts := _get_photo_counts title_str photo_attributions
      let result_data : ResultData :=
        { title := some title_str
          place_id := current_place_id
          address := place_data.address
          phone := place_data.phone
          website := place_data.website
          rating := place_data.rating.getD 0
          reviews_count := place_data.reviews.getD 0
          social_links := social_links
          recent_reviews_in_last_month_count := recent_reviews_filtered.length
          posts_count := all_posts.length
          photo_counts_by_uploader := photo_counts
          total_photos_analyzed := photo_attributions.length }
      .ok { success := true, data := some result_data }

/-- The body of the big try block of analyze (lines 347-572): identity
resolution (lines 351-400) followed by the detail fetch and merge. -/
def analyzeBody (query place_id : Option String) (env : AnalyzeEnv) :
    Except PyErr AnalyzeResult :=
  if pyTruthy place_id then
    analyzeDetails env (place_id.getD "") none
  else if !(pyTruthy query) then
    .ok { success := false,
          error := some "Internal Error: Either query or place_id must be provided." }
  else
    match env.search with
    | none =>
        .ok { success := false, error := some "No results found for query" }
    | some initial_results =>
      let initial_search_result : Option SearchItem :=
        match initial_results.place_results with
        | some item => some item
        | none => initial_results.local_results.head?
      match initial_search_result with
      | none =>
          .ok { success := false, error := some "No GBP found for query" }
      | some item =>
        if pyTruthy item.place_id then
          analyzeDetails env (item.place_id.getD "") (some item)
        else
          .ok { success := false,
                error := some "Could not extract place_id from search results." }

/-- Embeds analyze (gbp_analyzer.py lines 319-581): run the body under the
top-level exception handler, which converts any escaping exception into the
tagged failure result carrying the default data (lines 574-581). -/
def analyze (query place_id : Option String) (env : AnalyzeEnv) :
    AnalyzeResult :=
  match analyzeBody query place_id env with
  | .ok r => r
  | .error e =>
      { success := false,
        error := some ("Analysis failed: " ++ errMsg e),
        data := some (defaultResultData place_id) }

/-- A concrete environment: a resolved business titled Biz whose photo
branch delivered one owner-attributed and one customer-attributed photo. -/
def envTwoPhotos : AnalyzeEnv :=
  { details_place := some { title := some (some "Biz") },
    photos_branch := .ok [{ uploader := some "Owner" },
                          { uploader := some "Alice" }] }

/-! ## Photo scraper failure semantics (src/src/scrapers/photo_scraper.py)

The browser interaction is abstracted into per-photo outcomes; the
classification and error-handling control flow is taken from the source. -/

/-- The outcome of handling one thumbnail inside _process_single_photo:
the uploader container was found and name extraction produced this string
(the extractor itself already defaults to Owner when every strategy
fails), or no container was found within the timeout, or a
PlaywrightTimeoutError was raised, or some other exception was raised. -/
inductive PhotoEvent where
  | containerFound (uploader_name : String)
  | noContainer
  | timeoutError
  | otherError
  deriving DecidableEq, Repr

/-- Embeds _process_single_photo (photo_scraper.py lines 98-135): a found
container yields the extracted name, a missing container and a playwright
timeout both yield Owner, and any other exception yields Error. -/
def _process_single_photo : PhotoEvent → Photo
  | .containerFound uploader_name => { uploader := some uploader_name }
  | .noContainer => { uploader := some "Owner" }
  | .timeoutError => { uploader := some "Owner" }
  | .otherError => { uploader := some "Error" }

/-- Embeds the result shape of get_attributions_by_navigation
(photo_scraper.py lines 137-287).  setup_ok says whether steps 1-3
(navigation, consent, entering the gallery) succeeded; on failure the
critical-error handler runs with an empty accumulator and replaces it with
the singleton Error attribution (lines 277-278).  On success each
collected thumbnail contributes exactly one attribution. -/
def get_attributions_by_navigation (setup_ok : Bool)
    (photos : List PhotoEvent) : List Photo :=
  if setup_ok then
    photos.map _process_single_photo
  else
    let attributions : List Photo := []
    if attributions.isEmpty then [{ uploader := some "Error" }]
    else attributions

/-! ## Helper lemmas -/

theorem google_post_scoring_some (q : ℚ) :
    _google_post_scoring (some q) = .ok (googlePostBand q) := by
  simp only [_google_post_scoring, googlePostBand, pyGE, bind, Except.bind, pure, Except.pure]
  split_ifs <;> simp_all

theorem review_recency_scoring_some (q : ℚ) :
    _review_recency_scoring (some q) = .ok (reviewRecencyBand q) := by
  simp only [_review_recency_scoring, reviewRecencyBand, pyGE, bind, Except.bind, pure, Except.pure]
  split_ifs <;> simp_all

theorem googlePostBand_range (q : ℚ) : 0 ≤ googlePostBand q ∧ googlePostBand q ≤ 10 := by
  unfold googlePostBand; split_ifs <;> norm_num

theorem reviewRecencyBand_range (q : ℚ) : 0 ≤ reviewRecencyBand q ∧ reviewRecencyBand q ≤ 10 := by
  unfold reviewRecencyBand; split_ifs <;> norm_num

theorem owner_images_range (q : ℚ) : 0 ≤ _owner_images_scoring q ∧ _owner_images_scoring q ≤ 10 := by
  unfold _owner_images_scoring; split_ifs <;> norm_num

theorem customer_images_range (q : ℚ) : 0 ≤ _customer_images_scoring q ∧ _customer_images_scoring q ≤ 10 := by
  unfold _customer_images_scoring; split_ifs <;> norm_num

theorem review_count_range (q : ℚ) : 0 ≤ _review_count_scoring q ∧ _review_count_scoring q ≤ 10 := by
  unfold _review_count_scoring; split_ifs <;> norm_num

theorem fields_filled_range (q : ℚ) (d : Option String) :
    0 ≤ _fields_filled_scoring q d ∧ _fields_filled_scoring q d ≤ 10 := by
  unfold _fields_filled_scoring; dsimp only; split_ifs <;> norm_num

theorem NAPW_range (n a p w : Option String) :
    0 ≤ _NAPW_completeness_scoring n a p w ∧ _NAPW_completeness_scoring n a p w ≤ 10 := by
  unfold _NAPW_completeness_scoring; dsimp only; split_ifs <;> norm_num

theorem star_rating_range (r : ℚ) (h0 : 0 ≤ r) (h5 : r ≤ 5) :
    0 ≤ _star_rating_scoring r ∧ _star_rating_scoring r ≤ 10 := by
  unfold _star_rating_scoring
  constructor <;> nlinarith

theorem roundHalfEven_bounds (y : ℚ) (B : ℤ) (h0 : 0 ≤ y) (hB : y ≤ (B : ℚ)) :
    0 ≤ roundHalfEven y ∧ roundHalfEven y ≤ B := by
  have hfl0 : (0 : ℤ) ≤ ⌊y⌋ := Int.le_floor.mpr (by exact_mod_cast h0)
  have hflB : ⌊y⌋ ≤ B := by
    have := Int.floor_le_floor hB
    simpa using this
  have hceB : ⌈y⌉ ≤ B := Int.ceil_le.mpr hB
  unfold roundHalfEven
  split_ifs with h1 h2 h3
  · exact ⟨hfl0, hflB⟩
  · exact ⟨le_trans hfl0 (Int.floor_le_ceil y), hceB⟩
  · exact ⟨hfl0, hflB⟩
  · -- the tie case: fract y = 1/2, so the floor is strictly below B
    have hfr : Int.fract y = 1/2 := le_antisymm (not_lt.mp h2) (not_lt.mp h1)
    have hy : y = (⌊y⌋ : ℚ) + 1/2 := by
      have := Int.fract_add_floor y
      rw [hfr] at this
      linarith
    have hlt : (⌊y⌋ : ℚ) < (B : ℚ) := by rw [hy] at hB; linarith
    have : ⌊y⌋ < B := by exact_mod_cast hlt
    exact ⟨by omega, by omega⟩

theorem pyRound1_bounds (x : ℚ) (h0 : 0 ≤ x) (h1 : x ≤ 10) :
    0 ≤ pyRound1 x ∧ pyRound1 x ≤ 10 := by
  have h := roundHalfEven_bounds (10 * x) 100 (by linarith) (by push_cast; linarith)
  unfold pyRound1
  obtain ⟨ha, hb⟩ := h
  constructor
  · positivity
  · rw [div_le_iff₀ (by norm_num)]
    calc ((roundHalfEven (10 * x) : ℤ) : ℚ) ≤ (100 : ℚ) := by exact_mod_cast hb
    _ = 10 * 10 := by norm_num

/-! ## Claim theorems and witnesses -/

theorem calc_score_full (rating : ℚ) (reviews attrs posts recent owner customer : ℕ)
    (title address phone website desc : String) :
    calculate_score (mkFullRecord rating reviews attrs posts recent owner customer
        title address phone website desc) =
      .ok (pyRound1 (specWeightedSum (mkFullRecord rating reviews attrs posts recent owner customer
        title address phone website desc))) := by
  simp only [calculate_score, mkFullRecord, specWeightedSum,
    google_post_scoring_some, review_recency_scoring_some,
    Option.getD_some, bind, Except.bind, pure, Except.pure]

theorem specWeightedSum_range (d : BusinessData)
    (h0 : 0 ≤ d.rating.getD 0) (h5 : d.rating.getD 0 ≤ 5) :
    0 ≤ specWeightedSum d ∧ specWeightedSum d ≤ 10 := by
  obtain ⟨g0, g1⟩ := googlePostBand_range (d.posts_count.getD 0)
  obtain ⟨o0, o1⟩ := owner_images_range ((d.photo_counts_by_uploader.getD {}).owner_photo_count.getD 0)
  obtain ⟨c0, c1⟩ := customer_images_range ((d.photo_counts_by_uploader.getD {}).customer_photo_count.getD 0)
  obtain ⟨r0, r1⟩ := reviewRecencyBand_range (d.recent_reviews_in_last_month_count.getD 0)
  obtain ⟨s0, s1⟩ := star_rating_range (d.rating.getD 0) h0 h5
  obtain ⟨v0, v1⟩ := review_count_range (d.reviews_count.getD 0)
  obtain ⟨f0, f1⟩ := fields_filled_range (d.attributes_count.getD 0) d.description
  obtain ⟨n0, n1⟩ := NAPW_range d.title d.address d.phone d.website
  unfold specWeightedSum
  constructor <;> nlinarith

/-- C1: for every fully populated profile record with rating in the range
0 to 5 and natural-number count fields, calculate_score returns exactly the
weighted sum of the seven sub-scores (weights 0.20 posting activity, 0.20
combined image, 0.20 review recency, 0.15 star rating, 0.15 review count,
0.05 completeness, 0.05 NAPW) rounded to one decimal place, and the result
lies between 0 and 10. -/
theorem c1_calculate_score_weighted_sum_in_range
    (rating : ℚ) (reviews attrs posts recent owner customer : ℕ)
    (title address phone website desc : String)
    (h0 : 0 ≤ rating) (h5 : rating ≤ 5) :
    ∃ q : ℚ,
      calculate_score (mkFullRecord rating reviews attrs posts recent owner
          customer title address phone website desc) = .ok q
      ∧ q = pyRound1 (specWeightedSum (mkFullRecord rating reviews attrs posts
          recent owner customer title address phone website desc))
      ∧ 0 ≤ q ∧ q ≤ 10 := by
  set d := mkFullRecord rating reviews attrs posts recent owner customer
    title address phone website desc with hd
  have hget : d.rating.getD 0 = rating := by rw [hd]; rfl
  have hrange := specWeightedSum_range d (by rw [hget]; exact h0) (by rw [hget]; exact h5)
  have hbounds := pyRound1_bounds (specWeightedSum d) hrange.1 hrange.2
  exact ⟨pyRound1 (specWeightedSum d), calc_score_full _ _ _ _ _ _ _ _ _ _ _ _,
    rfl, hbounds.1, hbounds.2⟩

/-- C1 witness: the theorem applied at a concrete fully populated record. -/
theorem c1_witness :
    (0 : ℚ) ≤ 4 ∧ (4 : ℚ) ≤ 5 ∧
    ∃ q : ℚ,
      calculate_score (mkFullRecord 4 120 12 3 2 15 40
          "Biz" "Addr" "555-1234" "https://biz.example" "desc") = .ok q
      ∧ q = pyRound1 (specWeightedSum (mkFullRecord 4 120 12 3 2 15 40
          "Biz" "Addr" "555-1234" "https://biz.example" "desc"))
      ∧ 0 ≤ q ∧ q ≤ 10 :=
  ⟨by norm_num, by norm_num,
    c1_calculate_score_weighted_sum_in_range 4 120 12 3 2 15 40
      "Biz" "Addr" "555-1234" "https://biz.example" "desc"
      (by norm_num) (by norm_num)⟩

/-- C3 counterexample: a record fully populated except for the absent
posts_count key makes calculate_score raise TypeError (None >= 4 at the
posting-activity comparison) instead of returning a numeric score. -/
theorem c3_counterexample :
    calculate_score
      { photo_counts_by_uploader :=
          some { owner_photo_count := some 15, customer_photo_count := some 40 },
        rating := some 4, reviews_count := some 120,
        attributes_count := some 12, description := some "desc",
        title := some "Biz", address := some "Addr",
        phone := some "555-1234", website := some "https://biz.example",
        posts_count := none,
        recent_reviews_in_last_month_count := some 2 }
      = .error .typeError := rfl

/-- C3 amended: calculate_score returns a numeric score whenever the
posts_count and recent_reviews_in_last_month_count keys are present; every
other key may be absent, because those reads supply a default. -/
theorem c3_amended_present_activity_keys_score
    (d : BusinessData) (p r : ℚ)
    (hp : d.posts_count = some p)
    (hr : d.recent_reviews_in_last_month_count = some r) :
    ∃ q : ℚ, calculate_score d = .ok q := by
  simp only [calculate_score, hp, hr, google_post_scoring_some,
    review_recency_scoring_some, bind, Except.bind, pure, Except.pure]
  exact ⟨_, rfl⟩

/-- C3 witness: the amended theorem at a record where every key other than
the two activity counts is absent. -/
theorem c3_witness :
    ({ posts_count := some 0,
       recent_reviews_in_last_month_count := some 0 } : BusinessData).posts_count
        = some 0
    ∧ ({ posts_count := some 0,
         recent_reviews_in_last_month_count := some 0 }
          : BusinessData).recent_reviews_in_last_month_count = some 0
    ∧ ∃ q : ℚ,
        calculate_score
          { posts_count := some 0, recent_reviews_in_last_month_count := some 0 }
          = .ok q :=
  ⟨rfl, rfl,
    c3_amended_present_activity_keys_score
      { posts_count := some 0, recent_reviews_in_last_month_count := some 0 }
      0 0 rfl rfl⟩

/-- C4 counterexample: on the input where all four NAPW fields are present
(name Biz, address Addr, phone 555-1234, website http://biz.business.site)
the source returns 10 through the all-four branch, not 8. -/
theorem c4_counterexample :
    _NAPW_completeness_scoring (some "Biz") (some "Addr") (some "555-1234")
        (some "http://biz.business.site") = 10
    ∧ _NAPW_completeness_scoring (some "Biz") (some "Addr") (some "555-1234")
        (some "http://biz.business.site") ≠ 8 := by
  constructor
  · rfl
  · decide

/-- C4 amended: with all four fields present the all-four branch returns
10; the special-site branch takes priority over the plain three-of-four
band only when not all four fields are present, for example with the phone
absent the same qualifying website gives 8, not 6. -/
theorem c4_amended_branch_priority :
    _NAPW_completeness_scoring (some "Biz") (some "Addr") (some "555-1234")
        (some "http://biz.business.site") = 10
    ∧ _NAPW_completeness_scoring (some "Biz") (some "Addr") none
        (some "http://biz.business.site") = 8
    ∧ _NAPW_completeness_scoring (some "Biz") (some "Addr") none
        (some "http://biz.business.site") ≠ 6 := by
  refine ⟨rfl, rfl, by decide⟩

/-- C10: when the website is the only truthy NAPW field and it contains
one of the special business-page domain substrings, the sub-score is 8
through the special-site branch, not the 1 of the one-field band. -/
theorem c10_special_site_overrides_one_field (w : String)
    (h : (strIn ".business.site" w || strIn "facebook.com" w
          || strIn "instagram.com" w || strIn "linkedin.com" w) = true) :
    _NAPW_completeness_scoring none none none (some w) = 8
    ∧ _NAPW_completeness_scoring none none none (some w) ≠ 1 := by
  have hw : ¬(w = "") := by
    rintro rfl
    exact absurd h (by decide)
  have hflen : (([none, none, none, some w] : List (Option String)).filter
      pyTruthy).length = 1 := by
    have : (w == "") = false := by simpa using hw
    simp [pyTruthy, List.filter, this]
  have hcond : (pyTruthy (some w)
      && special_sites.any (fun site => strIn site ((some w : Option String).getD "")))
        = true := by
    simp only [special_sites, Option.getD_some, List.any, pyTruthy,
      Bool.and_eq_true, Bool.or_eq_true] at h ⊢
    refine ⟨by simpa using hw, ?_⟩
    tauto
  constructor
  · unfold _NAPW_completeness_scoring
    dsimp only
    rw [hflen, hcond]
    norm_num
  · unfold _NAPW_completeness_scoring
    dsimp only
    rw [hflen, hcond]
    norm_num

/-- C10 witness: the theorem at a concrete site-builder website. -/
theorem c10_witness :
    (strIn ".business.site" "http://biz.business.site"
      || strIn "facebook.com" "http://biz.business.site"
      || strIn "instagram.com" "http://biz.business.site"
      || strIn "linkedin.com" "http://biz.business.site") = true
    ∧ (_NAPW_completeness_scoring none none none (some "http://biz.business.site") = 8
       ∧ _NAPW_completeness_scoring none none none (some "http://biz.business.site") ≠ 1) :=
  ⟨by decide, c10_special_site_overrides_one_field "http://biz.business.site" (by decide)⟩

/-- C8: the total relative-date parser agrees with the spec description on
every input string, takes the five documented example values, and the
older unguarded variant agrees with it on every input whose whitespace
split is non-empty (on a whitespace-only input the unguarded variant
raises IndexError instead, a case the claim leaves unspecified). -/
theorem c8_relative_date_parser_spec :
    (∀ s : String,
        underscore_convert_relative_date_to_days s = relativeDateSpec s)
    ∧ underscore_convert_relative_date_to_days "a week ago" = .days 7
    ∧ underscore_convert_relative_date_to_days "3 days ago" = .days 3
    ∧ underscore_convert_relative_date_to_days "now" = .days 0
    ∧ underscore_convert_relative_date_to_days "2 months ago" = .days 60
    ∧ underscore_convert_relative_date_to_days "gibberish" = .inf
    ∧ ∀ s : String, pySplit (pyLower s) ≠ [] →
        convert_relative_date_to_days s
          = underscore_convert_relative_date_to_days s := by
  refine ⟨?_, by decide, by decide, by decide, by decide, by decide, ?_⟩
  · intro s
    unfold underscore_convert_relative_date_to_days relativeDateSpec
    dsimp only
    by_cases hnow : (strIn "now" (pyLower s) || strIn "moment" (pyLower s)) = true
    · simp [hnow]
    · simp only [Bool.not_eq_true] at hnow
      simp only [hnow, Bool.false_eq_true, if_false]
      cases hsp : pySplit (pyLower s) with
      | nil => rfl
      | cons t ts =>
        dsimp only
        cases hq : (if t = "a" || t = "an" then some (1 : ℤ) else pyParseInt t) with
        | none => rfl
        | some n =>
          dsimp only [List.findSome?]
          split_ifs <;> simp <;> push_cast <;> ring
  · intro s hsp
    unfold convert_relative_date_to_days underscore_convert_relative_date_to_days
    dsimp only
    cases h : pySplit (pyLower s) with
    | nil => exact absurd h hsp
    | cons t ts => simp [h]

/-- C8 witness: the agreement of the two parser variants applied at a
splittable concrete input. -/
theorem c8_witness :
    pySplit (pyLower "3 days ago") ≠ []
    ∧ convert_relative_date_to_days "3 days ago"
        = underscore_convert_relative_date_to_days "3 days ago" :=
  ⟨by decide,
    c8_relative_date_parser_spec.2.2.2.2.2.2 "3 days ago" (by decide)⟩

theorem paginateLoop_length_le {α : Type} (provider : ℕ → ApiPage α) (K : ℕ)
    (hK : ∀ i, pageItemCount (provider i) ≤ K) :
    ∀ (r idx : ℕ) (acc : List α),
      (paginateLoop provider r idx acc).length ≤ acc.length + r * K := by
  intro r
  induction r with
  | zero => intro idx acc; simp [paginateLoop]
  | succ n ih =>
    intro idx acc
    unfold paginateLoop
    cases hp : provider idx with
    | empty => exact Nat.le_add_right _ _
    | page items token =>
      have hitems : items.length ≤ K := by
        have := hK idx
        rw [hp] at this
        simpa [pageItemCount] using this
      dsimp only
      split_ifs with he
      · exact Nat.le_add_right _ _
      · cases token with
        | some tok =>
          calc (paginateLoop provider n (idx + 1) (acc ++ items)).length
              ≤ (acc ++ items).length + n * K := ih _ _
            _ = acc.length + items.length + n * K := by simp
            _ ≤ acc.length + (n + 1) * K := by
                rw [Nat.succ_mul]; omega
        | none =>
          simp only [List.length_append]
          rw [Nat.succ_mul]; omega

set_option maxRecDepth 4000

/-- C5 counterexample: on an endless stream of 50-item pages that always
carry a next_page_token, pagination with the default page limit of 10
accumulates 500 items, exceeding the claimed 200-item ceiling. -/
theorem c5_counterexample :
    (_paginate_results
        (fun _ => ApiPage.page (List.replicate 50 ()) (some "tok")) 10).length = 500
    ∧ ¬((_paginate_results
        (fun _ => ApiPage.page (List.replicate 50 ()) (some "tok")) 10).length ≤ 200) := by
  refine ⟨by decide, by decide⟩

/-- C5 amended: pagination stops at an empty or failed response, an empty
item list, a missing token, or the page-count ceiling; the item ceiling
stored in __init__ is never consulted, so the accumulated item count is
bounded only by page_limit times the largest page size. -/
theorem c5_amended_page_limit_bound {α : Type} (provider : ℕ → ApiPage α)
    (page_limit K : ℕ) (hK : ∀ i, pageItemCount (provider i) ≤ K) :
    (_paginate_results provider page_limit).length ≤ page_limit * K := by
  have := paginateLoop_length_le provider K hK page_limit 0 []
  simpa [_paginate_results] using this

/-- C5 witness: the amended bound at the endless 50-item provider with the
default page limit. -/
theorem c5_witness :
    (∀ i : ℕ, pageItemCount
        ((fun _ => ApiPage.page (List.replicate 50 ()) (some "tok")) i) ≤ 50)
    ∧ (_paginate_results
        (fun _ => ApiPage.page (List.replicate 50 ()) (some "tok")) 10).length
        ≤ 10 * 50 :=
  ⟨fun _ => by simp [pageItemCount],
    c5_amended_page_limit_bound
      (fun _ => ApiPage.page (List.replicate 50 ()) (some "tok")) 10 50
      (fun _ => by simp [pageItemCount])⟩

/-- C6 counterexample: a steps-1-to-3 failure yields the singleton Error
attribution, not an empty list, and a generic per-photo exception is
recorded as Error, not Owner. -/
theorem c6_counterexample :
    get_attributions_by_navigation false [] = [{ uploader := some "Error" }]
    ∧ get_attributions_by_navigation false [] ≠ []
    ∧ _process_single_photo .otherError = { uploader := some "Error" }
    ∧ _process_single_photo .otherError ≠ { uploader := some "Owner" } := by
  refine ⟨rfl, by decide, rfl, by decide⟩

/-- C6 amended: a steps-1-to-3 failure yields the singleton list holding
one Error attribution; per-photo timeouts and missing attribution
containers are recorded as Owner while other per-photo exceptions are
recorded as Error, and in every case each photo contributes exactly one
attribution, so per-photo failures never abort the scan. -/
theorem c6_amended_failure_semantics (photos : List PhotoEvent) :
    get_attributions_by_navigation false photos = [{ uploader := some "Error" }]
    ∧ get_attributions_by_navigation true photos
        = photos.map _process_single_photo
    ∧ (get_attributions_by_navigation true photos).length = photos.length
    ∧ _process_single_photo .timeoutError = { uploader := some "Owner" }
    ∧ _process_single_photo .noContainer = { uploader := some "Owner" }
    ∧ _process_single_photo .otherError = { uploader := some "Error" } := by
  refine ⟨rfl, rfl, by simp [get_attributions_by_navigation], rfl, rfl, rfl⟩

/-- C2: evaluating the merge at a single stale post shows the divergence:
the orchestrator stores posts_count = 1 (the stale post is counted), while
the repository's own recency filter counts 0 recent posts there, because
the 2-months-ago conversion is 60 days and 60 is not at most 31. -/
theorem c2_posts_count_counts_all_posts :
    (analyze none (some "pid")
        { details_place := some
            { updates_posts := some [{ posted_at_text := some "2 months ago" }] } }).success
        = true
    ∧ ((analyze none (some "pid")
        { details_place := some
            { updates_posts := some [{ posted_at_text := some "2 months ago" }] } }).data.map
          ResultData.posts_count) = some 1
    ∧ _filter_posts_by_recency [{ posted_at_text := some "2 months ago" }] = .ok 0
    ∧ convert_relative_date_to_days "2 months ago" = .days 60
    ∧ ¬((60 : ℚ) ≤ 31) := by
  refine ⟨rfl, rfl, ?_, by decide, by decide⟩
  rfl

/-- C9: whenever the body of analyze raises, the top-level handler turns
the exception into the tagged failure result: success is false, the error
message carries the Analysis failed tag, and the data field falls back to
the default record. -/
theorem c9_analyze_catches_exceptions (query place_id : Option String)
    (env : AnalyzeEnv) (e : PyErr)
    (h : analyzeBody query place_id env = .error e) :
    analyze query place_id env
      = { success := false,
          error := some ("Analysis failed: " ++ errMsg e),
          data := some (defaultResultData place_id) }
    ∧ (analyze query place_id env).success = false := by
  unfold analyze
  rw [h]
  exact ⟨rfl, rfl⟩

/-- C9 witness: a details response whose title key holds None makes the
body raise AttributeError at the search-URL construction, and analyze
converts it into the tagged failure. -/
theorem c9_witness :
    analyzeBody none (some "pid")
        { details_place := some { title := some none } } = .error .attributeError
    ∧ (analyze none (some "pid") { details_place := some { title := some none } }
        = { success := false,
            error := some ("Analysis failed: " ++ errMsg .attributeError),
            data := some (defaultResultData (some "pid")) }
      ∧ (analyze none (some "pid")
          { details_place := some { title := some none } }).success = false) :=
  ⟨rfl, c9_analyze_catches_exceptions none (some "pid")
      { details_place := some { title := some none } } .attributeError rfl⟩

theorem tallyPhotos_sum (t : String) :
    ∀ (l : List Photo) (c : PhotoCounts),
      (tallyPhotos t l c).owner_photo_count
          + (tallyPhotos t l c).customer_photo_count
        = c.owner_photo_count + c.customer_photo_count + l.length := by
  intro l
  induction l with
  | nil => intro c; simp [tallyPhotos]
  | cons p rest ih =>
    intro c
    unfold tallyPhotos
    split_ifs <;> rw [ih] <;> simp <;> omega

theorem get_photo_counts_sum (title : String) (attrs : List Photo)
    (h : attrs = [] ∨ ¬(title = "")) :
    (_get_photo_counts title attrs).owner_photo_count
      + (_get_photo_counts title attrs).customer_photo_count = attrs.length := by
  unfold _get_photo_counts
  dsimp only
  split_ifs with h1 h2
  · simp only [List.isEmpty_iff] at h1
    simp [h1]
  · rcases h with h | h
    · simp only [List.isEmpty_iff] at h1
      exact absurd h h1
    · simp only [beq_iff_eq] at h2
      exact absurd h2 h
  · rw [tallyPhotos_sum]
    simp

theorem photoCountsMatchSum (t : String) (pb : Except Unit (List Photo))
    (h : t = "" → branchResult pb = []) :
    (_get_photo_counts t (branchResult pb)).owner_photo_count
      + (_get_photo_counts t (branchResult pb)).customer_photo_count
      = (branchResult pb).length := by
  by_cases ht : t = ""
  · exact get_photo_counts_sum _ _ (Or.inl (h ht))
  · exact get_photo_counts_sum _ _ (Or.inr ht)

theorem analyzeDetails_photo_invariant (env : AnalyzeEnv) (cpid : String)
    (isr : Option SearchItem)
    (hscr : ∀ pd l, env.details_place = some pd → pd.title = some (some "") →
        env.photos_branch = .ok l → l = [])
    (r : AnalyzeResult) (hr : analyzeDetails env cpid isr = .ok r)
    (hs : r.success = true) (d : ResultData) (hd : r.data = some d) :
    d.photo_counts_by_uploader.owner_photo_count
      + d.photo_counts_by_uploader.customer_photo_count
      = d.total_photos_analyzed := by
  unfold analyzeDetails at hr
  cases henv : env.details_place with
  | none =>
    rw [henv] at hr
    injection hr with hr
    rw [← hr] at hs
    simp at hs
  | some place_data =>
    rw [henv] at hr
    dsimp only at hr
    cases htitle : place_data.title with
    | none =>
      rw [htitle] at hr
      dsimp only at hr
      injection hr with hr
      rw [← hr] at hd
      simp only [Option.some.injEq] at hd
      rw [← hd]
      dsimp only
      exact photoCountsMatchSum _ env.photos_branch
        (fun ht => absurd ht (by decide))
    | some v =>
      rw [htitle] at hr
      cases v with
      | none => exact absurd hr (by simp)
      | some t =>
        dsimp only at hr
        injection hr with hr
        rw [← hr] at hd
        simp only [Option.some.injEq] at hd
        rw [← hd]
        dsimp only
        refine photoCountsMatchSum t env.photos_branch (fun ht => ?_)
        cases hb : env.photos_branch with
        | ok l =>
          simp only [branchResult]
          exact hscr place_data l henv (ht ▸ htitle) hb
        | error u => rfl

/-- C7: for every successful analysis whose photo attributions were
produced by the scraper wrapper (which returns the empty list whenever the
business title is falsy), the merged record satisfies
owner_photo_count + customer_photo_count = total_photos_analyzed. -/
theorem c7_photo_count_invariant (query place_id : Option String)
    (env : AnalyzeEnv)
    (hscr : ∀ pd l, env.details_place = some pd → pd.title = some (some "") →
        env.photos_branch = .ok l → l = [])
    (d : ResultData)
    (hd : (analyze query place_id env).data = some d)
    (hs : (analyze query place_id env).success = true) :
    d.photo_counts_by_uploader.owner_photo_count
      + d.photo_counts_by_uploader.customer_photo_count
      = d.total_photos_analyzed := by
  unfold analyze at hd hs
  cases hb : analyzeBody query place_id env with
  | error e =>
    rw [hb] at hs
    simp at hs
  | ok r =>
    rw [hb] at hd hs
    unfold analyzeBody at hb
    split_ifs at hb with h1 h2
    · exact analyzeDetails_photo_invariant env _ none hscr r hb hs d hd
    · injection hb with hb
      rw [← hb] at hs
      simp at hs
    · cases hsearch : env.search with
      | none =>
        rw [hsearch] at hb
        injection hb with hb
        rw [← hb] at hs
        simp at hs
      | some initial_results =>
        rw [hsearch] at hb
        dsimp only at hb
        cases hisr : (match initial_results.place_results with
          | some item => some item
          | none => initial_results.local_results.head?) with
        | none =>
          rw [hisr] at hb
          injection hb with hb
          rw [← hb] at hs
          simp at hs
        | some item =>
          rw [hisr] at hb
          dsimp only at hb
          split_ifs at hb with h3
          · exact analyzeDetails_photo_invariant env _ (some item) hscr r hb hs d hd
          · injection hb with hb
            rw [← hb] at hs
            simp at hs

/-- C7 witness: the invariant at a concrete successful analysis with a
mixed attribution list. -/
theorem c7_witness :
    (∀ pd l, envTwoPhotos.details_place = some pd →
        pd.title = some (some "") →
        envTwoPhotos.photos_branch = .ok l → l = [])
    ∧ ∀ d : ResultData,
        (analyze none (some "pid") envTwoPhotos).data = some d →
        (analyze none (some "pid") envTwoPhotos).success = true →
        d.photo_counts_by_uploader.owner_photo_count
          + d.photo_counts_by_uploader.customer_photo_count
          = d.total_photos_analyzed := by
  have hscr : ∀ pd l, envTwoPhotos.details_place = some pd →
      pd.title = some (some "") →
      envTwoPhotos.photos_branch = .ok l → l = [] := by
    intro pd l hpd ht _
    rw [envTwoPhotos] at hpd
    injection hpd with hpd
    rw [← hpd] at ht
    simp at ht
  exact ⟨hscr, fun d hd hs =>
    c7_photo_count_invariant none (some "pid") envTwoPhotos hscr d hd hs⟩
